import Mathlib

/-!
# Verification of the Qul-i-QaT study app's state/orchestration layer

A shallow embedding of the application's data model and orchestration
handlers (`App.tsx`) and of its external-service client wrappers
(`services/geminiService.ts`), with theorems about the behaviours the
specification describes: per-slot content fetch lifecycle, topic-list
fetching and exhaustion, chat streaming and its failure handling,
persisted-state JSON round-tripping, the speech toggle, and the clients'
error policies.

External calls are modelled by passing their outcome as an explicit
argument (`Except`/outcome inductives); the handlers are then pure state
transformers, and the theorems quantify over all outcomes.
-/

namespace QuliQat

/-! ## Data model (`types.ts` / `App.tsx`) -/

/-- One multiple-choice question as produced by the quiz client. -/
structure MCQ where
  question : String
  options : List String
  correctAnswer : String
deriving DecidableEq, Repr

/-- A content slot `{isLoading, data?, error?}`; `data` is typed per slot. -/
structure ContentSlot (α : Type) where
  isLoading : Bool
  data : Option α
  error : Option String
deriving DecidableEq, Repr

/-- The four content kinds a topic tracks. -/
inductive ContentType where
  | answer
  | image
  | mcqs
  | eli5
deriving DecidableEq, Repr

/-- The payload type carried by each content kind: text for answer/eli5,
a base64 string for image, a question list for mcqs. -/
@[reducible] def ContentType.Data : ContentType → Type
  | .answer => String
  | .image => String
  | .mcqs => List MCQ
  | .eli5 => String

/-- Per-topic content: the topic text plus its four independent slots. -/
structure TopicContent where
  question : String
  answer : ContentSlot String
  image : ContentSlot String
  mcqs : ContentSlot (List MCQ)
  eli5 : ContentSlot String
deriving DecidableEq, Repr

/-- JS `Record<string, T>` objects are modelled as association lists in
key-insertion order, matching object key ordering. -/
def getKey {α : Type} : List (String × α) → String → Option α
  | [], _ => none
  | (k', v) :: rest, k => if k' = k then some v else getKey rest k

/-- Spread update `{...rec, [k]: v}`: replace in place if the key exists, else append. -/
def setKey {α : Type} : List (String × α) → String → α → List (String × α)
  | [], k, v => [(k, v)]
  | (k', v') :: rest, k, v =>
      if k' = k then (k', v) :: rest else (k', v') :: setKey rest k v

/-- The single persisted state blob (`PersistentState` in `App.tsx`). -/
structure PersistentState where
  subject : Option String
  standard : Option String
  isCourseSelected : Bool
  selectedChapter : Option String
  selectedTopic : Option String
  topics : List (String × List String)
  content : List (String × TopicContent)
  activeView : List (String × String)
  noMoreTopics : List (String × Bool)
deriving DecidableEq, Repr

/-- The default state `loadPersistentState` returns when storage is empty
or corrupted. -/
def defaultPersistentState : PersistentState :=
  { subject := none
    standard := none
    isCourseSelected := false
    selectedChapter := none
    selectedTopic := none
    topics := []
    content := []
    activeView := []
    noMoreTopics := [] }

/-! ## Content fetch (`fetchContent` in `App.tsx`) -/

/-- An idle slot `{ isLoading: false }`. -/
def emptySlot {α : Type} : ContentSlot α := ⟨false, none, none⟩

/-- The fresh per-topic record `fetchContent` creates when the topic has
no content entry yet. -/
def defaultTopicContent (topic : String) : TopicContent :=
  ⟨topic, emptySlot, emptySlot, emptySlot, emptySlot⟩

/-- Read the slot of a given kind. -/
def TopicContent.getSlot (tc : TopicContent) :
    (ty : ContentType) → ContentSlot ty.Data
  | .answer => tc.answer
  | .image => tc.image
  | .mcqs => tc.mcqs
  | .eli5 => tc.eli5

/-- Replace the slot of a given kind (`[type]: {...}` in the updater). -/
def TopicContent.setSlot (tc : TopicContent) :
    (ty : ContentType) → ContentSlot ty.Data → TopicContent
  | .answer, s => { tc with answer := s }
  | .image, s => { tc with image := s }
  | .mcqs, s => { tc with mcqs := s }
  | .eli5, s => { tc with eli5 := s }

/-- The `contentUpdater` closure from `fetchContent`: writes a whole new
`{isLoading, data, error}` triple into the topic's slot of kind `ty`,
creating the topic record if absent. -/
def contentUpdater (st : PersistentState) (topic : String) (ty : ContentType)
    (isLoading : Bool) (data : Option ty.Data) (error : Option String) :
    PersistentState :=
  let cur := (getKey st.content topic).getD (defaultTopicContent topic)
  { st with
    content := setKey st.content topic (cur.setSlot ty ⟨isLoading, data, error⟩) }

/-- The state visible after `contentUpdater(true)` ran but before the
awaited client call resolved. -/
def fetchContentLoading (st : PersistentState) (topic : String)
    (ty : ContentType) : PersistentState :=
  contentUpdater st topic ty true none none

/-- Handler `fetchContent(topic, type)` run to completion, with the client call's
outcome passed in as `result`. Guard: bails out when no chapter, standard
or subject is selected. -/
def fetchContent (st : PersistentState) (topic : String) (ty : ContentType)
    (result : Except String ty.Data) : PersistentState :=
  if st.selectedChapter.isNone || st.standard.isNone || st.subject.isNone then
    st
  else
    let st1 := fetchContentLoading st topic ty
    match result with
    | .ok d => contentUpdater st1 topic ty false (some d) none
    | .error msg => contentUpdater st1 topic ty false none (some msg)

/-- Convenience: the slot of kind `ty` for `topic` as the UI reads it. -/
def slotOf (st : PersistentState) (topic : String) (ty : ContentType) :
    ContentSlot ty.Data :=
  ((getKey st.content topic).getD (defaultTopicContent topic)).getSlot ty

/-! ## Topic-list fetch (`fetchTopics` in `App.tsx`) -/

/-- The state `fetchTopics` touches: the persisted blob plus the ephemeral
per-chapter in-flight flags and the global error string. -/
structure TopicsState where
  persistent : PersistentState
  isTopicsLoading : List (String × Bool)
  globalError : Option String
deriving DecidableEq, Repr

/-- Handler `fetchTopics(chapter)` run to completion, with the client call's
outcome passed in as `res` (an `Except` carrying the client's wrapped
error message on failure). Guard: bails out when already in flight for
the chapter or when no standard/subject is selected. An empty result sets
the chapter's `noMoreTopics` flag; a non-empty result appends to the
chapter's existing list; a failure stores the message in the global error
slot. The in-flight flag ends false either way. -/
def fetchTopics (s : TopicsState) (chapter : String)
    (res : Except String (List String)) : TopicsState :=
  if (getKey s.isTopicsLoading chapter).getD false
      || s.persistent.standard.isNone || s.persistent.subject.isNone then
    s
  else
    let loading1 := setKey s.isTopicsLoading chapter true
    let p := s.persistent
    match res with
    | .ok newTopics =>
        if newTopics.isEmpty then
          { persistent :=
              { p with noMoreTopics := setKey p.noMoreTopics chapter true }
            isTopicsLoading := setKey loading1 chapter false
            globalError := none }
        else
          { persistent :=
              { p with topics := (setKey p.topics chapter
                  ((getKey p.topics chapter).getD [] ++ newTopics)) }
            isTopicsLoading := setKey loading1 chapter false
            globalError := none }
    | .error msg =>
        { persistent := p
          isTopicsLoading := setKey loading1 chapter false
          globalError := some msg }

/-- A state with a course and chapter selected, as after course selection
and `handleChapterSelect`. Used as concrete input for counterexamples and
witnesses. -/
def baseState : PersistentState :=
  { defaultPersistentState with
    subject := some "Computer Science"
    standard := some "Class 10"
    isCourseSelected := true
    selectedChapter := some "Functions" }

/-- State after a successful answer fetch for topic `"t"`. -/
def c1StateAfterSuccess : PersistentState :=
  fetchContent baseState "t" ContentType.answer (Except.ok "old answer")

/-- Then a failed answer fetch for the same topic `"t"`. -/
def c1StateAfterFailure : PersistentState :=
  fetchContent c1StateAfterSuccess "t" ContentType.answer
    (Except.error "network failure")

/-! ## Chat (`handleSendMessage` in `App.tsx`) -/

/-- Transcript entry roles (`'user' | 'model'`). -/
inductive ChatRole where
  | user
  | model
deriving DecidableEq, Repr

/-- One transcript entry `{role, parts}`. -/
structure ChatMessage where
  role : ChatRole
  parts : String
deriving DecidableEq, Repr

/-- The chat-related component state: the opaque session handle (present
or not), the in-flight flag, and the local transcript. -/
structure ChatState where
  chatSession : Option Unit
  isChatLoading : Bool
  chatHistory : List ChatMessage
deriving DecidableEq, Repr

/-- One run of the streamed response: the chunk texts delivered in order,
then either normal termination (`failure = none`) or a thrown error whose
message is `failure = some msg`. -/
structure StreamRun where
  chunks : List String
  failure : Option String
deriving DecidableEq, Repr

/-- In-place last-entry update `newHistory[newHistory.length - 1] = f(last)`: copy the list and
rewrite its last entry. -/
def updateLast (f : ChatMessage → ChatMessage) : List ChatMessage → List ChatMessage
  | [] => []
  | m :: rest => if rest.isEmpty then f m :: rest else m :: updateLast f rest

/-- Appending one delivered chunk: skipped when the chunk text is empty
(`if (chunkText)`), otherwise concatenated onto the last entry's `parts`
provided that entry is a model entry. -/
def applyChunk (hist : List ChatMessage) (c : String) : List ChatMessage :=
  if c = "" then hist
  else updateLast (fun m =>
    if m.role = ChatRole.model then { m with parts := m.parts ++ c } else m) hist

/-- The catch branch: overwrite the last entry wholesale. -/
def replaceLast (hist : List ChatMessage) (m : ChatMessage) : List ChatMessage :=
  updateLast (fun _ => m) hist

/-- The error text the catch branch builds from the thrown error. -/
def chatErrMsg (msg : String) : String :=
  "Sorry, an error occurred: " ++ msg

/-- The guard test `!message.trim()`: the message is empty or whitespace-only, i.e. every
character is whitespace. -/
def isBlank (s : String) : Bool :=
  s.data.all Char.isWhitespace

/-- Handler `handleSendMessage(message)` run to completion against a stream whose
behaviour is `run`. Returns the new chat state and whether the external
streaming call was made. Guard: a missing session, an in-flight response,
or a blank message make it a complete no-op. -/
def handleSendMessage (cs : ChatState) (message : String) (run : StreamRun) :
    ChatState × Bool :=
  if cs.chatSession.isNone || cs.isChatLoading || isBlank message then
    (cs, false)
  else
    let hist0 := cs.chatHistory ++ [⟨ChatRole.user, message⟩, ⟨ChatRole.model, ""⟩]
    let hist1 := run.chunks.foldl applyChunk hist0
    let histF :=
      match run.failure with
      | none => hist1
      | some msg => replaceLast hist1 ⟨ChatRole.model, chatErrMsg msg⟩
    ({ cs with chatHistory := histF, isChatLoading := false }, true)

/-- A ready chat state: session present, idle, empty transcript. -/
def c2ChatState : ChatState := ⟨some (), false, []⟩

/-! ## Substring containment (for error-message claims) -/

/-- Proposition that `msg` mentions `name`: the characters of `name` occur contiguously in
`msg`. -/
def mentions (msg name : String) : Prop :=
  List.IsInfix name.data msg.data

instance (msg name : String) : Decidable (mentions msg name) :=
  List.decidableInfix name.data msg.data

/-- Anything of the shape `pre ++ name ++ suf` mentions `name`. -/
theorem mentions_of_eq_append (pre name suf : String) :
    mentions (pre ++ name ++ suf) name :=
  ⟨pre.data, suf.data, by simp [String.data_append]⟩

/-! ## External LLM client (`services/geminiService.ts`) -/

/-- What happened inside a client's try block: either the model call or
the local JSON parse threw (both land in the same catch), or a parsed
value was produced. -/
inductive LlmOutcome (α : Type) where
  | failure (msg : String)
  | value (v : α)
deriving DecidableEq, Repr

/-- The wrapped error `getChapterTopics` rethrows. -/
def topicsFailMsg (chapterName : String) : String :=
  "Failed to get topics for \"" ++ chapterName ++ "\"."

/-- Client `getChapterTopics`: returns the parsed topic list, or rethrows a
single chapter-scoped error on any transport/parse failure. -/
def getChapterTopics (chapterName : String) (o : LlmOutcome (List String)) :
    Except String (List String) :=
  match o with
  | .failure _ => .error (topicsFailMsg chapterName)
  | .value l => .ok l

/-- The wrapped error `getTopicContent` rethrows. -/
def contentFailMsg (topic : String) : String :=
  "Failed to get content for topic: \"" ++ topic ++ "\"."

/-- Client `getTopicContent`: returns the parsed answer text, or rethrows a
single topic-scoped error on any transport/parse failure. -/
def getTopicContent (topic : String) (o : LlmOutcome String) :
    Except String String :=
  match o with
  | .failure _ => .error (contentFailMsg topic)
  | .value s => .ok s

/-- Modelled from the spec: the simplified-explanation client
`getELI5ForTopic` is imported by `App.tsx` from the service module, but
its definition is not among the repository's source files. Per the spec it
is "analogous to" the explanation fetch "with different prompt framing",
and its failure is re-raised as a single descriptive error carrying the
topic name; this message stands in for its (unknown) exact text. -/
def eli5FailMsg (topic : String) : String :=
  "Failed to get a simpler explanation for topic: \"" ++ topic ++ "\"."

/-- Modelled from the spec: `getELI5ForTopic`, see `eli5FailMsg`. -/
def getELI5ForTopic (topic : String) (o : LlmOutcome String) :
    Except String String :=
  match o with
  | .failure _ => .error (eli5FailMsg topic)
  | .value s => .ok s

/-- The wrapped error `getMCQsForTopic` rethrows (for transport/parse
failures and for the in-try "invalid or empty array" throw alike). -/
def quizFailMsg (topic : String) : String :=
  "Failed to generate a quiz for: \"" ++ topic ++ "\". Please try again."

/-- What the quiz model call produced: a thrown transport error, a
response that did not parse as an array of items, or a parsed item list. -/
inductive MCQResponse where
  | failure (msg : String)
  | invalidJson
  | parsed (items : List MCQ)
deriving DecidableEq, Repr

/-- Client `getMCQsForTopic`: rejects a non-array or empty parse result (thrown
in-try as "Model returned an invalid or empty array for MCQs.", then
caught), otherwise returns the parsed list verbatim — item count, option
counts, and correct-answer membership are not validated locally. -/
def getMCQsForTopic (topic : String) (resp : MCQResponse) :
    Except String (List MCQ) :=
  match resp with
  | .failure _ => .error (quizFailMsg topic)
  | .invalidJson => .error (quizFailMsg topic)
  | .parsed items =>
      if items.isEmpty then .error (quizFailMsg topic) else .ok items

/-! ## External image-generation client (`generateImageForTopic`) -/

/-- The two external calls the image client can make, in order. -/
inductive ImgCall where
  | llmPrompt
  | httpPost
deriving DecidableEq, Repr

/-- Outcome of the image-endpoint HTTP POST: a success response whose JSON
has the `image` field (`some` base64) or lacks it (`none`); a non-success
status; or a thrown network error. -/
inductive HttpOutcome where
  | ok (image : Option String)
  | status (code : Nat)
  | networkFailure (msg : String)
deriving DecidableEq, Repr

def hfKeyMissingMsg : String :=
  "Hugging Face API key is not configured. Cannot generate image."

def image503Msg : String :=
  "The visualization model is currently loading. Please wait about 20 seconds and try again."

def imageStatusMsg (code : Nat) : String :=
  "Failed to generate image. Status: " ++ toString code ++ "."

def imageNoImageMsg : String :=
  "The model did not return a valid image. It may be under maintenance."

def imageGenericMsg : String :=
  "Failed to visualize the concept. Please try again."

/-- An image-generation run: the final result plus the external calls that
were attempted, in order. -/
structure ImageRun where
  result : Except String String
  calls : List ImgCall
deriving Repr

/-- Client `generateImageForTopic(topic, subject)`: with no credential it throws
the configuration error before the try block, making no external call.
Otherwise it asks the LLM for a visual prompt, then POSTs to the image
endpoint; every thrown error is caught and re-raised with the thrown
message when non-empty, else with a generic message. The topic name never
enters any of these messages. -/
def generateImageForTopic (hfKey : Option String) (_topic _subject : String)
    (llm : Except String String) (http : HttpOutcome) : ImageRun :=
  match hfKey with
  | none => ⟨.error hfKeyMissingMsg, []⟩
  | some _ =>
    match llm with
    | .error msg =>
        ⟨.error (if msg = "" then imageGenericMsg else msg), [.llmPrompt]⟩
    | .ok _visualPrompt =>
      match http with
      | .status code =>
          ⟨.error (if code = 503 then image503Msg else imageStatusMsg code),
            [.llmPrompt, .httpPost]⟩
      | .networkFailure msg =>
          ⟨.error (if msg = "" then imageGenericMsg else msg),
            [.llmPrompt, .httpPost]⟩
      | .ok none => ⟨.error imageNoImageMsg, [.llmPrompt, .httpPost]⟩
      | .ok (some b64) => ⟨.ok b64, [.llmPrompt, .httpPost]⟩

/-! ## Speech toggle (`handleToggleSpeech` in `App.tsx`) -/

/-- Speech UI state `{isPlaying, currentTopic}`. -/
structure SpeechState where
  isPlaying : Bool
  currentTopic : Option String
deriving DecidableEq, Repr

/-- JS truthiness of the cached answer text: `undefined` and the empty
string both read as "no answer". -/
def truthyText : Option String → Option String
  | none => none
  | some s => if s = "" then none else some s

/-- The cached text `content[topic]?.answer?.data` as a usable value. -/
def answerText (st : PersistentState) (topic : String) : Option String :=
  truthyText (slotOf st topic ContentType.answer).data

/-- Handler `handleToggleSpeech(topic)`: toggles off when the same topic is
playing; otherwise cancels any other speech, marks the topic playing,
fetches the answer first when it is not cached (outcome `fetchResult`),
and abandons playback silently (back to idle) when no answer text is
available afterwards. -/
def handleToggleSpeech (sp : SpeechState) (st : PersistentState)
    (topic : String) (fetchResult : Except String String) :
    SpeechState × PersistentState :=
  if sp.isPlaying = true ∧ sp.currentTopic = some topic then
    (⟨false, none⟩, st)
  else
    let st' :=
      match answerText st topic with
      | some _ => st
      | none => fetchContent st topic ContentType.answer fetchResult
    match answerText st' topic with
    | none => (⟨false, none⟩, st')
    | some _ => (⟨true, some topic⟩, st')

/-- A state in which topic `"t"` has a cached answer. -/
def c9State : PersistentState :=
  fetchContent baseState "t" ContentType.answer (Except.ok "answer text")

/-- An MCQ whose shape violates everything the quiz prompt asks for: one
item, two options, correct answer not among them. -/
def c3BadMcq : MCQ := ⟨"Which?", ["A", "B"], "Z"⟩

/-! ## Persisted-state serialization (`JSON.stringify`/`JSON.parse`) -/

/-- The JSON value tree exchanged through the storage blob. The persisted
state contains only nulls, booleans, strings, arrays and objects (no
numbers), so those constructors suffice. -/
inductive Json where
  | null
  | bool (b : Bool)
  | str (s : String)
  | arr (items : List Json)
  | obj (fields : List (String × Json))
deriving Repr

def Json.asBool : Json → Option Bool
  | .bool b => some b
  | _ => none

def Json.asStr : Json → Option String
  | .str s => some s
  | _ => none

/-- A nullable string field: `null` on the wire when absent. -/
def encodeOptStr : Option String → Json
  | none => Json.null
  | some s => Json.str s

def decodeOptStr : Json → Option (Option String)
  | .null => some none
  | .str s => some (some s)
  | _ => none

def encodeMCQ (m : MCQ) : Json :=
  .obj [("question", .str m.question),
        ("options", .arr (m.options.map Json.str)),
        ("correctAnswer", .str m.correctAnswer)]

def decodeStrList : List Json → Option (List String)
  | [] => some []
  | j :: rest =>
      match j.asStr, decodeStrList rest with
      | some s, some r => some (s :: r)
      | _, _ => none

def decodeStrArr : Json → Option (List String)
  | .arr js => decodeStrList js
  | _ => none

def decodeMCQ : Json → Option MCQ
  | .obj fields =>
      match (getKey fields "question").bind Json.asStr,
            (getKey fields "options").bind decodeStrArr,
            (getKey fields "correctAnswer").bind Json.asStr with
      | some q, some o, some c => some ⟨q, o, c⟩
      | _, _, _ => none
  | _ => none

/-- Serializing a slot: `JSON.stringify` drops `undefined`-valued properties, so an absent
`data`/`error` simply contributes no field. -/
def encodeSlot {α : Type} (enc : α → Json) (s : ContentSlot α) : Json :=
  .obj ([("isLoading", Json.bool s.isLoading)]
    ++ (match s.data with | some d => [("data", enc d)] | none => [])
    ++ (match s.error with | some e => [("error", Json.str e)] | none => []))

/-- Reading an optional property: a missing key is `undefined` (`none`). -/
def decodeOptField {α : Type} (dec : Json → Option α) :
    Option Json → Option (Option α)
  | none => some none
  | some j =>
      match dec j with
      | some v => some (some v)
      | none => none

def decodeSlot {α : Type} (dec : Json → Option α) : Json → Option (ContentSlot α)
  | .obj fields =>
      match (getKey fields "isLoading").bind Json.asBool,
            decodeOptField dec (getKey fields "data"),
            decodeOptField Json.asStr (getKey fields "error") with
      | some b, some d, some e => some ⟨b, d, e⟩
      | _, _, _ => none
  | _ => none

def encodeMcqList (l : List MCQ) : Json := .arr (l.map encodeMCQ)

def decodeMCQList : List Json → Option (List MCQ)
  | [] => some []
  | j :: rest =>
      match decodeMCQ j, decodeMCQList rest with
      | some m, some r => some (m :: r)
      | _, _ => none

def decodeMcqData : Json → Option (List MCQ)
  | .arr js => decodeMCQList js
  | _ => none

def encodeTopicContent (tc : TopicContent) : Json :=
  .obj [("question", .str tc.question),
        ("answer", encodeSlot Json.str tc.answer),
        ("image", encodeSlot Json.str tc.image),
        ("mcqs", encodeSlot encodeMcqList tc.mcqs),
        ("eli5", encodeSlot Json.str tc.eli5)]

def decodeTopicContent : Json → Option TopicContent
  | .obj fields =>
      match (getKey fields "question").bind Json.asStr,
            (getKey fields "answer").bind (decodeSlot Json.asStr),
            (getKey fields "image").bind (decodeSlot Json.asStr),
            (getKey fields "mcqs").bind (decodeSlot decodeMcqData),
            (getKey fields "eli5").bind (decodeSlot Json.asStr) with
      | some q, some a, some i, some m, some e => some ⟨q, a, i, m, e⟩
      | _, _, _, _, _ => none
  | _ => none

/-- A `Record<string, T>` serializes to an object whose fields are its
entries in key order. -/
def encodeRecord {α : Type} (enc : α → Json) (l : List (String × α)) : Json :=
  .obj (l.map fun p => (p.1, enc p.2))

def decodeFields {α : Type} (dec : Json → Option α) :
    List (String × Json) → Option (List (String × α))
  | [] => some []
  | (k, j) :: rest =>
      match dec j, decodeFields dec rest with
      | some v, some r => some ((k, v) :: r)
      | _, _ => none

def decodeRecord {α : Type} (dec : Json → Option α) :
    Json → Option (List (String × α))
  | .obj fields => decodeFields dec fields
  | _ => none

/-- The blob `JSON.stringify(persistentState)`: the full value written to storage
on every mutation. -/
def encodePersistentState (s : PersistentState) : Json :=
  .obj [("subject", encodeOptStr s.subject),
        ("standard", encodeOptStr s.standard),
        ("isCourseSelected", Json.bool s.isCourseSelected),
        ("selectedChapter", encodeOptStr s.selectedChapter),
        ("selectedTopic", encodeOptStr s.selectedTopic),
        ("topics", encodeRecord (fun ts => Json.arr (ts.map Json.str)) s.topics),
        ("content", encodeRecord encodeTopicContent s.content),
        ("activeView", encodeRecord Json.str s.activeView),
        ("noMoreTopics", encodeRecord Json.bool s.noMoreTopics)]

/-- Reading the parsed blob back as the state structure
(`JSON.parse` + the shape `loadPersistentState`'s caller relies on). -/
def decodePersistentState : Json → Option PersistentState
  | .obj fields =>
      match (getKey fields "subject").bind decodeOptStr,
            (getKey fields "standard").bind decodeOptStr,
            (getKey fields "isCourseSelected").bind Json.asBool,
            (getKey fields "selectedChapter").bind decodeOptStr,
            (getKey fields "selectedTopic").bind decodeOptStr,
            (getKey fields "topics").bind (decodeRecord decodeStrArr),
            (getKey fields "content").bind (decodeRecord decodeTopicContent),
            (getKey fields "activeView").bind (decodeRecord Json.asStr),
            (getKey fields "noMoreTopics").bind (decodeRecord Json.asBool) with
      | some su, some sd, some co, some ch, some tp,
        some ts, some ct, some av, some nm =>
          some ⟨su, sd, co, ch, tp, ts, ct, av, nm⟩
      | _, _, _, _, _, _, _, _, _ => none
  | _ => none

/-! ### Basic lemmas about records and slots -/

theorem getKey_setKey_self {α : Type} (l : List (String × α)) (k : String)
    (v : α) : getKey (setKey l k v) k = some v := by
  induction l with
  | nil => simp [getKey, setKey]
  | cons p rest ih =>
      obtain ⟨k', v'⟩ := p
      by_cases h : k' = k
      · simp [getKey, setKey, h]
      · simp [getKey, setKey, h, ih]

theorem getSlot_setSlot_self (tc : TopicContent) (ty : ContentType)
    (s : ContentSlot ty.Data) : (tc.setSlot ty s).getSlot ty = s := by
  cases ty <;> rfl

theorem slotOf_contentUpdater (st : PersistentState) (topic : String)
    (ty : ContentType) (b : Bool) (d : Option ty.Data) (e : Option String) :
    slotOf (contentUpdater st topic ty b d e) topic ty = ⟨b, d, e⟩ := by
  simp [slotOf, contentUpdater, getKey_setKey_self, getSlot_setSlot_self]

theorem fetchContent_ok (st : PersistentState) (topic : String)
    (ty : ContentType) (d : ty.Data)
    (hch : st.selectedChapter.isNone = false)
    (hst : st.standard.isNone = false)
    (hsu : st.subject.isNone = false) :
    slotOf (fetchContent st topic ty (.ok d)) topic ty = ⟨false, some d, none⟩ := by
  simp [fetchContent, hch, hst, hsu, slotOf_contentUpdater]

theorem fetchContent_err (st : PersistentState) (topic : String)
    (ty : ContentType) (msg : String)
    (hch : st.selectedChapter.isNone = false)
    (hst : st.standard.isNone = false)
    (hsu : st.subject.isNone = false) :
    slotOf (fetchContent st topic ty (.error msg)) topic ty
      = ⟨false, none, some msg⟩ := by
  simp [fetchContent, hch, hst, hsu, slotOf_contentUpdater]

/-! ## Claim C1 -/

/-- C1 (counterexample): after a successful answer fetch wrote
`data = "old answer"` into topic `"t"`'s answer slot, a later failed fetch
for the same slot does **not** leave that data in place: the completed
failed fetch rewrites the whole slot to
`{isLoading := false, data := none, error := some msg}`, so the prior data
is gone, refuting the claim at this concrete input. -/
theorem C1_counterexample :
    slotOf c1StateAfterSuccess "t" ContentType.answer
        = ⟨false, some "old answer", none⟩ ∧
    slotOf c1StateAfterFailure "t" ContentType.answer
        = ⟨false, none, some "network failure"⟩ ∧
    (slotOf c1StateAfterFailure "t" ContentType.answer).data
        ≠ (slotOf c1StateAfterSuccess "t" ContentType.answer).data := by
  refine ⟨by decide, by decide, by decide⟩

/-- C1 (amended): for every topic and slot, a fetch that fails (after a
prior success or not) writes `isLoading = false` and a non-null error, and
**clears** the slot's data to null — the data written by a prior
successful fetch does not survive, because `contentUpdater` replaces the
entire `{isLoading, data, error}` triple. -/
theorem C1_failed_fetch_clears_data (st : PersistentState) (topic : String)
    (ty : ContentType) (msg : String)
    (hch : st.selectedChapter.isNone = false)
    (hst : st.standard.isNone = false)
    (hsu : st.subject.isNone = false) :
    (slotOf (fetchContent st topic ty (.error msg)) topic ty).isLoading = false ∧
    (slotOf (fetchContent st topic ty (.error msg)) topic ty).error = some msg ∧
    (slotOf (fetchContent st topic ty (.error msg)) topic ty).data = none := by
  rw [fetchContent_err st topic ty msg hch hst hsu]
  exact ⟨rfl, rfl, rfl⟩

/-- Witness for `C1_failed_fetch_clears_data` at a concrete input. -/
theorem C1_witness :
    (slotOf (fetchContent c1StateAfterSuccess "t" ContentType.answer
        (.error "network failure")) "t" ContentType.answer).isLoading = false ∧
    (slotOf (fetchContent c1StateAfterSuccess "t" ContentType.answer
        (.error "network failure")) "t" ContentType.answer).error
        = some "network failure" ∧
    (slotOf (fetchContent c1StateAfterSuccess "t" ContentType.answer
        (.error "network failure")) "t" ContentType.answer).data = none :=
  C1_failed_fetch_clears_data c1StateAfterSuccess "t" ContentType.answer
    "network failure" rfl rfl rfl

/-! ## Claim C4 -/

/-- C4: the slot lifecycle invariant. While the request is in flight the
slot written by `contentUpdater(true)` is `{true, none, none}` — loading is
never true together with data or error from the same request; after the
request completes, loading is false and exactly one of data/error is
non-null. In particular a slot with non-null data always has
`isLoading = false`, so it is read as loaded only in that configuration. -/
theorem C4_slot_lifecycle (st : PersistentState) (topic : String)
    (ty : ContentType) (result : Except String ty.Data)
    (hch : st.selectedChapter.isNone = false)
    (hst : st.standard.isNone = false)
    (hsu : st.subject.isNone = false) :
    slotOf (fetchContentLoading st topic ty) topic ty = ⟨true, none, none⟩ ∧
    (slotOf (fetchContent st topic ty result) topic ty).isLoading = false ∧
    (((slotOf (fetchContent st topic ty result) topic ty).data.isSome = true ∧
        (slotOf (fetchContent st topic ty result) topic ty).error = none) ∨
      ((slotOf (fetchContent st topic ty result) topic ty).data = none ∧
        (slotOf (fetchContent st topic ty result) topic ty).error.isSome = true)) := by
  refine ⟨slotOf_contentUpdater st topic ty true none none, ?_⟩
  cases result with
  | ok d =>
      rw [fetchContent_ok st topic ty d hch hst hsu]
      exact ⟨rfl, Or.inl ⟨rfl, rfl⟩⟩
  | error msg =>
      rw [fetchContent_err st topic ty msg hch hst hsu]
      exact ⟨rfl, Or.inr ⟨rfl, rfl⟩⟩

/-- Witness for `C4_slot_lifecycle` at a concrete input. -/
theorem C4_witness :
    slotOf (fetchContentLoading baseState "t" ContentType.answer) "t"
        ContentType.answer = ⟨true, none, none⟩ ∧
    (slotOf (fetchContent baseState "t" ContentType.answer (.ok "text")) "t"
        ContentType.answer).isLoading = false ∧
    (((slotOf (fetchContent baseState "t" ContentType.answer (.ok "text")) "t"
        ContentType.answer).data.isSome = true ∧
      (slotOf (fetchContent baseState "t" ContentType.answer (.ok "text")) "t"
        ContentType.answer).error = none) ∨
     ((slotOf (fetchContent baseState "t" ContentType.answer (.ok "text")) "t"
        ContentType.answer).data = none ∧
      (slotOf (fetchContent baseState "t" ContentType.answer (.ok "text")) "t"
        ContentType.answer).error.isSome = true)) :=
  C4_slot_lifecycle baseState "t" ContentType.answer (.ok "text") rfl rfl rfl

/-! ## Claim C5 -/

/-- C5: a topic-list fetch that returns the empty sequence sets the
chapter's exhaustion flag (`noMoreTopics[chapter] = true`) and leaves the
persisted topic map unchanged; a fetch returning a non-empty sequence
appends the new items after the chapter's existing ones. -/
theorem C5_topics_exhaustion_and_append (s : TopicsState) (chapter : String)
    (l : List String) (hl : l.isEmpty = false)
    (hload : (getKey s.isTopicsLoading chapter).getD false = false)
    (hst : s.persistent.standard.isNone = false)
    (hsu : s.persistent.subject.isNone = false) :
    (getKey (fetchTopics s chapter (.ok [])).persistent.noMoreTopics chapter
        = some true ∧
      (fetchTopics s chapter (.ok [])).persistent.topics
        = s.persistent.topics) ∧
    getKey (fetchTopics s chapter (.ok l)).persistent.topics chapter
        = some ((getKey s.persistent.topics chapter).getD [] ++ l) := by
  refine ⟨⟨?_, ?_⟩, ?_⟩ <;>
    simp [fetchTopics, hl, hload, hst, hsu, getKey_setKey_self]

/-- Witness for `C5_topics_exhaustion_and_append` at a concrete input. -/
theorem C5_witness :
    (getKey (fetchTopics ⟨baseState, [], none⟩ "Functions"
          (.ok [])).persistent.noMoreTopics "Functions" = some true ∧
      (fetchTopics ⟨baseState, [], none⟩ "Functions"
          (.ok [])).persistent.topics = baseState.topics) ∧
    getKey (fetchTopics ⟨baseState, [], none⟩ "Functions"
          (.ok ["What is a function?"])).persistent.topics "Functions"
        = some ((getKey baseState.topics "Functions").getD []
            ++ ["What is a function?"]) :=
  C5_topics_exhaustion_and_append ⟨baseState, [], none⟩ "Functions"
    ["What is a function?"] rfl rfl rfl rfl

/-! ### Chat lemmas -/

theorem updateLast_append (f : ChatMessage → ChatMessage)
    (h : List ChatMessage) (x : ChatMessage) :
    updateLast f (h ++ [x]) = h ++ [f x] := by
  induction h with
  | nil => simp [updateLast]
  | cons a t ih => simp [updateLast, ih]

theorem replaceLast_append (h : List ChatMessage) (x m : ChatMessage) :
    replaceLast (h ++ [x]) m = h ++ [m] := by
  simp [replaceLast, updateLast_append]

theorem foldl_applyChunk_shape (cs : List String) (pre : List ChatMessage)
    (mm : ChatMessage) :
    ∃ m, List.foldl applyChunk (pre ++ [mm]) cs = pre ++ [m] := by
  induction cs generalizing mm with
  | nil => exact ⟨mm, rfl⟩
  | cons c rest ih =>
      simp only [List.foldl_cons]
      by_cases hc : c = ""
      · simpa [applyChunk, hc] using ih mm
      · rw [applyChunk, if_neg hc, updateLast_append]
        exact ih _

/-! ## Claim C2 -/

/-- C2 (counterexample): with a ready chat session and an empty
transcript, sending `"hi"` against a stream that delivers the fragment
`"Hello "` and then fails with `"boom"` leaves a final model entry that is
exactly the error text — the delivered fragment `"Hello "` is not retained
anywhere in it, refuting the claim at this concrete input. -/
theorem C2_counterexample :
    (handleSendMessage c2ChatState "hi" ⟨["Hello "], some "boom"⟩).1.chatHistory
      = [⟨ChatRole.user, "hi"⟩,
         ⟨ChatRole.model, "Sorry, an error occurred: boom"⟩] ∧
    ¬ mentions "Sorry, an error occurred: boom" "Hello " := by
  exact ⟨by decide, by decide⟩

/-- C2 (amended): when the streamed response fails after any number of
delivered fragments, the catch branch **replaces** the final model entry
wholesale with the error text `"Sorry, an error occurred: " ++ msg`; the
fragments appended before the failure are discarded rather than retained.
The user entry and all earlier transcript entries are unchanged, and the
loading flag ends false. -/
theorem C2_stream_failure_discards_fragments (cs : ChatState)
    (message : String) (chunks : List String) (msg : String)
    (hsess : cs.chatSession.isNone = false)
    (hload : cs.isChatLoading = false)
    (hmsg : isBlank message = false) :
    (handleSendMessage cs message ⟨chunks, some msg⟩).1.chatHistory
      = cs.chatHistory
        ++ [⟨ChatRole.user, message⟩, ⟨ChatRole.model, chatErrMsg msg⟩] ∧
    (handleSendMessage cs message ⟨chunks, some msg⟩).1.isChatLoading = false := by
  have hguard :
      (cs.chatSession.isNone || cs.isChatLoading || isBlank message) = false := by
    simp [hsess, hload, hmsg]
  obtain ⟨m, hm⟩ := foldl_applyChunk_shape chunks
      (cs.chatHistory ++ [⟨ChatRole.user, message⟩]) ⟨ChatRole.model, ""⟩
  constructor
  · show (if (cs.chatSession.isNone || cs.isChatLoading || isBlank message)
        then (cs, false) else _).1.chatHistory = _
    rw [hguard]
    simp only [Bool.false_eq_true, if_false]
    show replaceLast (List.foldl applyChunk
        (cs.chatHistory ++ [⟨ChatRole.user, message⟩, ⟨ChatRole.model, ""⟩])
        chunks) ⟨ChatRole.model, chatErrMsg msg⟩ = _
    have hsplit :
        cs.chatHistory ++ [⟨ChatRole.user, message⟩, ⟨ChatRole.model, ""⟩]
          = (cs.chatHistory ++ [⟨ChatRole.user, message⟩])
              ++ [⟨ChatRole.model, ""⟩] := by
      simp
    rw [hsplit, hm, replaceLast_append]
    simp
  · show (if (cs.chatSession.isNone || cs.isChatLoading || isBlank message)
        then (cs, false) else _).1.isChatLoading = false
    rw [hguard]
    simp only [Bool.false_eq_true, if_false]

/-- Witness for `C2_stream_failure_discards_fragments` at a concrete
input. -/
theorem C2_witness :
    (handleSendMessage c2ChatState "hi" ⟨["Hello "], some "boom"⟩).1.chatHistory
      = c2ChatState.chatHistory
        ++ [⟨ChatRole.user, "hi"⟩, ⟨ChatRole.model, chatErrMsg "boom"⟩] ∧
    (handleSendMessage c2ChatState "hi"
        ⟨["Hello "], some "boom"⟩).1.isChatLoading = false :=
  C2_stream_failure_discards_fragments c2ChatState "hi" ["Hello "] "boom"
    rfl rfl (by decide)

/-! ## Claim C10 -/

/-- C10: sending a chat message is a complete no-op — state returned
unchanged and no external streaming call made — whenever no chat session
exists, a previous response is still streaming, or the trimmed message is
empty. -/
theorem C10_send_guard_noop (cs : ChatState) (message : String)
    (run : StreamRun)
    (h : cs.chatSession.isNone = true ∨ cs.isChatLoading = true ∨
      isBlank message = true) :
    handleSendMessage cs message run = (cs, false) := by
  have hguard :
      (cs.chatSession.isNone || cs.isChatLoading || isBlank message) = true := by
    rcases h with h | h | h <;> simp [h]
  show (if (cs.chatSession.isNone || cs.isChatLoading || isBlank message)
      then (cs, false) else _) = (cs, false)
  rw [hguard]
  simp only [if_true]

/-- Witness for `C10_send_guard_noop`: a whitespace-only message against a
ready chat state is dropped. -/
theorem C10_witness :
    handleSendMessage c2ChatState "   " ⟨["x"], none⟩ = (c2ChatState, false) :=
  C10_send_guard_noop c2ChatState "   " ⟨["x"], none⟩
    (Or.inr (Or.inr (by decide)))

/-! ## Claim C3 -/

/-- C3 (counterexample): the quiz client accepts, verbatim, a parsed
response with a single item having two options and a correct answer that
is not among them — no "exactly four items / four options / member
correct answer" shape is enforced on a successful fetch, refuting the
claim at this concrete input. -/
theorem C3_counterexample :
    getMCQsForTopic "Photosynthesis" (.parsed [c3BadMcq]) = .ok [c3BadMcq] ∧
    [c3BadMcq].length ≠ 4 ∧
    c3BadMcq.options.length ≠ 4 ∧
    c3BadMcq.correctAnswer ∉ c3BadMcq.options := by
  refine ⟨rfl, by decide, by decide, by decide⟩

/-- C3 (amended): a successful quiz fetch returns whatever non-empty list
the model produced, verbatim — the four-item/four-option/verbatim-answer
shape is requested from the model but not validated locally; the fetch
fails with the topic-scoped error exactly when the model returns an empty
or malformed (non-array) list, and a failed mcqs fetch leaves the slot
with the error set and data null. -/
theorem C3_quiz_fetch (topic : String) (l : List MCQ) (st : PersistentState)
    (hl : l.isEmpty = false)
    (hch : st.selectedChapter.isNone = false)
    (hst : st.standard.isNone = false)
    (hsu : st.subject.isNone = false) :
    getMCQsForTopic topic (.parsed l) = .ok l ∧
    getMCQsForTopic topic (.parsed []) = .error (quizFailMsg topic) ∧
    getMCQsForTopic topic .invalidJson = .error (quizFailMsg topic) ∧
    slotOf (fetchContent st topic ContentType.mcqs
        (.error (quizFailMsg topic))) topic ContentType.mcqs
      = ⟨false, none, some (quizFailMsg topic)⟩ := by
  refine ⟨by simp [getMCQsForTopic, hl], rfl, rfl, ?_⟩
  exact fetchContent_err st topic ContentType.mcqs (quizFailMsg topic) hch hst hsu

/-- Witness for `C3_quiz_fetch` at a concrete input. -/
theorem C3_witness :
    getMCQsForTopic "t" (.parsed [c3BadMcq]) = .ok [c3BadMcq] ∧
    getMCQsForTopic "t" (.parsed []) = .error (quizFailMsg "t") ∧
    getMCQsForTopic "t" .invalidJson = .error (quizFailMsg "t") ∧
    slotOf (fetchContent baseState "t" ContentType.mcqs
        (.error (quizFailMsg "t"))) "t" ContentType.mcqs
      = ⟨false, none, some (quizFailMsg "t")⟩ :=
  C3_quiz_fetch "t" [c3BadMcq] baseState rfl rfl rfl rfl

/-! ## Claim C6 -/

/-- C6 (counterexample): an image-generation request that fails with an
HTTP 500 is re-raised as `"Failed to generate image. Status: 500."`, which
does not carry the failed topic's name (here `"Photosynthesis"`), refuting
the claim that every client failure message carries the topic/chapter
name. -/
theorem C6_counterexample :
    (generateImageForTopic (some "hf-key") "Photosynthesis" "Biology"
        (.ok "a plant diagram") (.status 500)).result
      = .error "Failed to generate image. Status: 500." ∧
    ¬ mentions "Failed to generate image. Status: 500." "Photosynthesis" := by
  refine ⟨rfl, by decide⟩

/-- C6 (amended): chapter-topics, explanation, simplified-explanation and
quiz failures are each caught at the client boundary and re-raised as a
single error whose message carries the failed chapter or topic name, with
no retry; an image failure is likewise caught and re-raised as a single
error with no retry, but its message is the underlying/status description
and does not carry the topic name. -/
theorem C6_error_policy (chapterName topic : String) :
    mentions (topicsFailMsg chapterName) chapterName ∧
    mentions (contentFailMsg topic) topic ∧
    mentions (eli5FailMsg topic) topic ∧
    mentions (quizFailMsg topic) topic ∧
    (∀ msg, getChapterTopics chapterName (.failure msg)
        = .error (topicsFailMsg chapterName)) ∧
    (∀ msg, getTopicContent topic (.failure msg)
        = .error (contentFailMsg topic)) ∧
    (∀ msg, getELI5ForTopic topic (.failure msg)
        = .error (eli5FailMsg topic)) ∧
    (∀ msg, getMCQsForTopic topic (.failure msg)
        = .error (quizFailMsg topic)) ∧
    (∀ k subj p code, code ≠ 503 →
        (generateImageForTopic (some k) topic subj (.ok p)
            (.status code)).result = .error (imageStatusMsg code)) := by
  refine ⟨mentions_of_eq_append _ _ _, mentions_of_eq_append _ _ _,
    mentions_of_eq_append _ _ _, mentions_of_eq_append _ _ _,
    fun _ => rfl, fun _ => rfl, fun _ => rfl, fun _ => rfl,
    fun k subj p code hc => ?_⟩
  simp [generateImageForTopic, hc]

/-- Witness for `C6_error_policy` at a concrete chapter, topic and status
code. -/
theorem C6_witness :
    mentions (topicsFailMsg "Functions") "Functions" ∧
    getTopicContent "What is a function?" (.failure "timeout")
      = .error (contentFailMsg "What is a function?") ∧
    (500 ≠ 503 ∧
      (generateImageForTopic (some "hf-key") "What is a function?"
          "Computer Science" (.ok "a diagram") (.status 500)).result
        = .error (imageStatusMsg 500)) :=
  ⟨(C6_error_policy "Functions" "What is a function?").1,
   (C6_error_policy "Functions" "What is a function?").2.2.2.2.2.1 "timeout",
   by decide,
   (C6_error_policy "Functions" "What is a function?").2.2.2.2.2.2.2.2
     "hf-key" "Computer Science" "a diagram" 500 (by decide)⟩

/-! ## Claim C7 -/

/-- C7: with no image-service credential configured, an image-generation
request fails immediately with the configuration error and attempts no
external call — neither the LLM prompt-synthesis call nor the image HTTP
POST. -/
theorem C7_missing_credential_no_calls (topic subject : String)
    (llm : Except String String) (http : HttpOutcome) :
    generateImageForTopic none topic subject llm http
      = ⟨.error hfKeyMissingMsg, []⟩ :=
  rfl

/-! ## Claim C9 -/

/-- C9: for a topic whose answer text is cached, toggling speech twice in
a row returns the speech state to idle: the first invocation (made while
that topic is not the one playing) starts playback for the topic, and the
second, made while that topic is playing, cancels it. -/
theorem C9_toggle_twice_idle (sp : SpeechState) (st : PersistentState)
    (topic : String) (r : Except String String) (a : String)
    (hnot : ¬(sp.isPlaying = true ∧ sp.currentTopic = some topic))
    (hans : answerText st topic = some a) :
    handleToggleSpeech sp st topic r = (⟨true, some topic⟩, st) ∧
    handleToggleSpeech ⟨true, some topic⟩ st topic r = (⟨false, none⟩, st) := by
  constructor
  · unfold handleToggleSpeech
    rw [if_neg hnot]
    simp [hans]
  · unfold handleToggleSpeech
    rw [if_pos ⟨rfl, rfl⟩]

/-- Witness for `C9_toggle_twice_idle` at a concrete input. -/
theorem C9_witness :
    handleToggleSpeech ⟨false, none⟩ c9State "t" (.error "offline")
      = (⟨true, some "t"⟩, c9State) ∧
    handleToggleSpeech ⟨true, some "t"⟩ c9State "t" (.error "offline")
      = (⟨false, none⟩, c9State) :=
  C9_toggle_twice_idle ⟨false, none⟩ c9State "t" (.error "offline")
    "answer text" (by decide) (by decide)

/-! ### Serialization round-trip lemmas -/

theorem decodeOptStr_encodeOptStr (o : Option String) :
    decodeOptStr (encodeOptStr o) = some o := by
  cases o <;> rfl

theorem decodeStrList_map (l : List String) :
    decodeStrList (l.map Json.str) = some l := by
  induction l with
  | nil => rfl
  | cons s rest ih => simp [decodeStrList, Json.asStr, ih]

theorem decodeStrArr_encode (l : List String) :
    decodeStrArr (Json.arr (l.map Json.str)) = some l := by
  simp [decodeStrArr, decodeStrList_map]

theorem decodeMCQ_encodeMCQ (m : MCQ) : decodeMCQ (encodeMCQ m) = some m := by
  obtain ⟨q, o, c⟩ := m
  simp [encodeMCQ, decodeMCQ, getKey, decodeStrArr_encode, Json.asStr]

theorem decodeMCQList_map (l : List MCQ) :
    decodeMCQList (l.map encodeMCQ) = some l := by
  induction l with
  | nil => rfl
  | cons m rest ih => simp [decodeMCQList, decodeMCQ_encodeMCQ, ih]

theorem decodeMcqData_encode (l : List MCQ) :
    decodeMcqData (encodeMcqList l) = some l := by
  simp [decodeMcqData, encodeMcqList, decodeMCQList_map]

theorem decodeSlot_encodeSlot {α : Type} (dec : Json → Option α)
    (enc : α → Json) (h : ∀ a, dec (enc a) = some a) (s : ContentSlot α) :
    decodeSlot dec (encodeSlot enc s) = some s := by
  obtain ⟨b, d, e⟩ := s
  cases d <;> cases e <;>
    simp [encodeSlot, decodeSlot, getKey, decodeOptField, Json.asBool,
      Json.asStr, h]

theorem decodeTopicContent_encode (tc : TopicContent) :
    decodeTopicContent (encodeTopicContent tc) = some tc := by
  obtain ⟨q, a, i, m, e⟩ := tc
  simp [encodeTopicContent, decodeTopicContent, getKey, Json.asStr,
    decodeSlot_encodeSlot Json.asStr Json.str (fun _ => rfl),
    decodeSlot_encodeSlot decodeMcqData encodeMcqList decodeMcqData_encode]

theorem decodeFields_map {α : Type} (dec : Json → Option α) (enc : α → Json)
    (h : ∀ a, dec (enc a) = some a) (l : List (String × α)) :
    decodeFields dec (l.map fun p => (p.1, enc p.2)) = some l := by
  induction l with
  | nil => rfl
  | cons p rest ih =>
      obtain ⟨k, v⟩ := p
      simp [decodeFields, h, ih]

theorem decodeRecord_encodeRecord {α : Type} (dec : Json → Option α)
    (enc : α → Json) (h : ∀ a, dec (enc a) = some a) (l : List (String × α)) :
    decodeRecord dec (encodeRecord enc l) = some l := by
  simp [decodeRecord, encodeRecord, decodeFields_map dec enc h]

/-! ## Claim C8 -/

/-- C8: serializing the persistent state to the storage blob and reading
it back yields the original structure — the JSON round trip is the
identity on every persistent state (nullable fields travel as `null`,
absent slot fields are dropped and read back as absent, and every record,
slot and quiz item survives verbatim). -/
theorem C8_persisted_state_roundtrip (s : PersistentState) :
    decodePersistentState (encodePersistentState s) = some s := by
  obtain ⟨su, sd, co, ch, tp, ts, ct, av, nm⟩ := s
  simp [encodePersistentState, decodePersistentState, getKey,
    decodeOptStr_encodeOptStr, Json.asBool,
    decodeRecord_encodeRecord decodeStrArr _ decodeStrArr_encode,
    decodeRecord_encodeRecord decodeTopicContent _ decodeTopicContent_encode,
    decodeRecord_encodeRecord Json.asStr Json.str (fun _ => rfl),
    decodeRecord_encodeRecord Json.asBool Json.bool (fun _ => rfl)]

end QuliQat
